import Mathlib

/-!
Verification of `src/wf/entrypoint.py` (latchbio-nfcore/viralintegration):
a shallow embedding of the storage-provisioning task (`initialize`), the
runtime launcher (`nextflow_runtime`) and the workflow driver
(`nf_nf_core_viralintegration`), together with theorems settling the
specification's claims about command-line construction, directory staging,
error propagation and the child-process environment.

External effects (HTTP, the child process, the filesystem, log upload) are
modelled by an explicit `World` record describing each effect's outcome and
an event trace recording which effects were performed, in order.
-/

namespace ViralIntegration

/-! ## Flag translation (`get_flag` from `latch_cli.nextflow.workflow`)

`get_flag` is an external collaborator (the latch CLI library), not part of
this repository.  Modelled from the spec: "given a named parameter and its
present-or-absent, typed value, produce zero tokens (value absent and not
required), one or two tokens encoding `--name value` (value present,
non-boolean), or the runner-specific boolean encoding (value present,
boolean type)"; the boolean encoding differs for true vs false and is never
simply omitted. -/

/-- Modelled from the spec: flag group for a required string-like parameter
(file path, directory path): two tokens `--name value`. -/
def get_flag_req (name : String) (v : String) : List String :=
  ["--" ++ name, v]

/-- Modelled from the spec: flag group for an optional parameter: zero
tokens when absent, two tokens `--name value` when present. -/
def get_flag_opt (name : String) (v : Option String) : List String :=
  match v with
  | none => []
  | some s => ["--" ++ name, s]

/-- Modelled from the spec: flag group for a required integer parameter:
two tokens `--name value`. -/
def get_flag_int (name : String) (n : Int) : List String :=
  ["--" ++ name, toString n]

/-- Modelled from the spec: flag group for the boolean parameter, in the
runner's (Nextflow's) boolean-flag syntax `--name true` / `--name false`;
the encodings for true and false differ and neither is omitted. -/
def get_flag_bool (name : String) (b : Bool) : List String :=
  ["--" ++ name, if b then "true" else "false"]

/-! ## RunParameters

Typed inputs of the launch operation `nextflow_runtime`
(src/wf/entrypoint.py lines 48-61), fields in declared parameter order
(after `pvc_name`).  `LatchFile`/`LatchDir` values are represented by the
path string that the flag translation renders for them. -/

structure RunParameters where
  input : String
  viral_fasta : String
  outdir : String
  email : Option String
  multiqc_title : Option String
  genome : Option String
  fasta : Option String
  gtf : Option String
  multiqc_methods_description : Option String
  min_reads : Int
  max_hits : Int
  remove_duplicates : Bool
  deriving DecidableEq, Repr

/-- The staged working directory, `shared_dir = Path("/nf-workdir")`
(line 64). -/
def shared_dir : String := "/nf-workdir"

/-- The fixed runner-invocation tokens of the command line (lines 86-95):
`["/root/nextflow", "run", str(shared_dir / "main.nf"), "-work-dir",
str(shared_dir), "-profile", "docker", "-c", "latch.config"]`. -/
def fixedRunnerTokens : List String :=
  ["/root/nextflow", "run", shared_dir ++ "/main.nf",
   "-work-dir", shared_dir, "-profile", "docker", "-c", "latch.config"]

/-- The command line built at src/wf/entrypoint.py lines 86-108: the fixed
runner invocation followed by one `get_flag` group per parameter, in the
source's textual order. -/
def cmd (p : RunParameters) : List String :=
  fixedRunnerTokens
  ++ get_flag_req "input" p.input
  ++ get_flag_req "viral_fasta" p.viral_fasta
  ++ get_flag_req "outdir" p.outdir
  ++ get_flag_opt "email" p.email
  ++ get_flag_opt "multiqc_title" p.multiqc_title
  ++ get_flag_int "min_reads" p.min_reads
  ++ get_flag_int "max_hits" p.max_hits
  ++ get_flag_bool "remove_duplicates" p.remove_duplicates
  ++ get_flag_opt "genome" p.genome
  ++ get_flag_opt "fasta" p.fasta
  ++ get_flag_opt "gtf" p.gtf
  ++ get_flag_opt "multiqc_methods_description" p.multiqc_methods_description

/-- The per-parameter flag groups of `cmd`, as (parameter name, tokens)
pairs in the order the source appends them (lines 96-107). -/
def cmdGroups (p : RunParameters) : List (String × List String) :=
  [("input", get_flag_req "input" p.input),
   ("viral_fasta", get_flag_req "viral_fasta" p.viral_fasta),
   ("outdir", get_flag_req "outdir" p.outdir),
   ("email", get_flag_opt "email" p.email),
   ("multiqc_title", get_flag_opt "multiqc_title" p.multiqc_title),
   ("min_reads", get_flag_int "min_reads" p.min_reads),
   ("max_hits", get_flag_int "max_hits" p.max_hits),
   ("remove_duplicates", get_flag_bool "remove_duplicates" p.remove_duplicates),
   ("genome", get_flag_opt "genome" p.genome),
   ("fasta", get_flag_opt "fasta" p.fasta),
   ("gtf", get_flag_opt "gtf" p.gtf),
   ("multiqc_methods_description",
    get_flag_opt "multiqc_methods_description" p.multiqc_methods_description)]

/-- The parameter names whose flag group is nonempty, in order of
appearance in the generated command line. -/
def cmdFlagNames (p : RunParameters) : List String :=
  (cmdGroups p).filterMap (fun g => if g.2.isEmpty then none else some g.1)

/-- The declared parameter order of the launch operation
`nextflow_runtime` (src/wf/entrypoint.py lines 48-61, after `pvc_name`). -/
def declaredParamOrder : List String :=
  ["input", "viral_fasta", "outdir", "email", "multiqc_title",
   "genome", "fasta", "gtf", "multiqc_methods_description",
   "min_reads", "max_hits", "remove_duplicates"]

/-- The order in which the source actually appends the flag groups to the
command line (lines 96-107). -/
def sourceFlagOrder : List String :=
  ["input", "viral_fasta", "outdir", "email", "multiqc_title",
   "min_reads", "max_hits", "remove_duplicates",
   "genome", "fasta", "gtf", "multiqc_methods_description"]

/-- Whether the named parameter is present in `p` (required parameters are
always present; optional parameters are present when `some`). -/
def isPresent (p : RunParameters) : String → Bool
  | "input" => true
  | "viral_fasta" => true
  | "outdir" => true
  | "email" => p.email.isSome
  | "multiqc_title" => p.multiqc_title.isSome
  | "genome" => p.genome.isSome
  | "fasta" => p.fasta.isSome
  | "gtf" => p.gtf.isSome
  | "multiqc_methods_description" => p.multiqc_methods_description.isSome
  | "min_reads" => true
  | "max_hits" => true
  | "remove_duplicates" => true
  | _ => false

/-- The value tokens the flag translation renders into the command line
(the second token of each present flag group). -/
def valueTokens (p : RunParameters) : List String :=
  [p.input, p.viral_fasta, p.outdir]
  ++ p.email.toList ++ p.multiqc_title.toList
  ++ [toString p.min_reads, toString p.max_hits,
      if p.remove_duplicates then "true" else "false"]
  ++ p.genome.toList ++ p.fasta.toList ++ p.gtf.toList
  ++ p.multiqc_methods_description.toList

/-- Whether a token looks like a flag token, i.e. starts with the two
characters `--`. -/
def looksLikeFlag (s : String) : Bool :=
  s.data.take 2 = ['-', '-']

/-- Parameters are well formed when no rendered value token itself looks
like a flag token (starts with `--`). -/
def wfParams (p : RunParameters) : Prop :=
  ∀ s ∈ valueTokens p, looksLikeFlag s = false

instance (p : RunParameters) : Decidable (wfParams p) := by
  unfold wfParams; infer_instance

/-- The command line is the fixed runner prefix followed by the
concatenation of the flag groups, in group order. -/
lemma cmd_eq_groups (p : RunParameters) :
    cmd p = fixedRunnerTokens ++ ((cmdGroups p).map (·.2)).flatten := by
  simp [cmd, cmdGroups, List.append_assoc]

/-! ## Directory staging (src/wf/entrypoint.py lines 64-84)

`shutil.copytree(Path("/root"), shared_dir, ignore=lambda src, names:
ignore_list, ignore_dangling_symlinks=True, dirs_exist_ok=True)`.

A source tree is a list of named entries; a symbolic link records whether
its target exists (`dangling = true` means the target is missing).  The
copy follows CPython's `shutil._copytree`: at every directory level the
`ignore` callable is consulted (here it returns `ignore_list` regardless
of its arguments, so the same names are skipped at every depth); a
symbolic link is dereferenced when its target exists (`symlinks=False`,
so the copy of a link to a file is a plain file), and a dangling link is
silently skipped when `ignore_dangling_symlinks=True` but contributes an
error (raised at the end as `shutil.Error`) when it is `False`.  Errors
are accumulated in the second component; the copy aborts (raises) exactly
when that list is nonempty. -/

inductive FSEntry where
  | file (name : String)
  | dir (name : String) (children : List FSEntry)
  | symlink (name : String) (dangling : Bool)

/-- The name of a directory entry. -/
def entryName : FSEntry → String
  | .file n => n
  | .dir n _ => n
  | .symlink n _ => n

/-- The fixed denylist of src/wf/entrypoint.py lines 66-76. -/
def ignore_list : List String :=
  ["latch", ".latch", "nextflow", ".nextflow", "work", "results",
   "miniconda", "anaconda3", "mambaforge"]

mutual

/-- Copy of one non-ignored entry: a file is copied; a directory is copied
recursively (its own listing filtered again); a symbolic link is
dereferenced when its target exists and skipped (with an error unless
`ignoreDangling`) when it dangles. -/
def copyOne (ignoreDangling : Bool) : FSEntry → Option FSEntry × List String
  | .file n => (some (.file n), [])
  | .dir n cs =>
      let r := copyList ignoreDangling cs
      (some (.dir n r.1), r.2)
  | .symlink n dangling =>
      if dangling then
        if ignoreDangling then (none, [])
        else (none, ["dangling symlink: " ++ n])
      else (some (.file n), [])

/-- Copy of a directory listing: entries named in `ignore_list` are
skipped, the rest are copied by `copyOne`; errors accumulate. -/
def copyList (ignoreDangling : Bool) : List FSEntry → List FSEntry × List String
  | [] => ([], [])
  | e :: rest =>
      let tail := copyList ignoreDangling rest
      if entryName e ∈ ignore_list then tail
      else
        let r := copyOne ignoreDangling e
        (r.1.toList ++ tail.1, r.2 ++ tail.2)

end

/-- The staging step as the source performs it: `ignore_dangling_symlinks`
is `True` (line 82). -/
def stageCopytree (tree : List FSEntry) : List FSEntry × List String :=
  copyList true tree

mutual

/-- `true` when the entry's subtree contains no directory whose name is in
`ignore_list` (the entry itself included), at any depth. -/
def denyFreeEntry : FSEntry → Bool
  | .file _ => true
  | .symlink _ _ => true
  | .dir n cs => !(ignore_list.contains n) && denyFreeList cs

/-- `true` when no entry of the list contains a denylisted directory. -/
def denyFreeList : List FSEntry → Bool
  | [] => true
  | e :: rest => denyFreeEntry e && denyFreeList rest

end

mutual

/-- `true` when the entry's subtree contains a symbolic link. -/
def hasSymlinkEntry : FSEntry → Bool
  | .file _ => false
  | .symlink _ _ => true
  | .dir _ cs => hasSymlinkList cs

/-- `true` when some entry of the list contains a symbolic link. -/
def hasSymlinkList : List FSEntry → Bool
  | [] => false
  | e :: rest => hasSymlinkEntry e || hasSymlinkList rest

end

mutual

/-- `true` when the entry's subtree contains a dangling symbolic link. -/
def hasDanglingEntry : FSEntry → Bool
  | .file _ => false
  | .symlink _ d => d
  | .dir _ cs => hasDanglingList cs

/-- `true` when some entry of the list contains a dangling symbolic
link. -/
def hasDanglingList : List FSEntry → Bool
  | [] => false
  | e :: rest => hasDanglingEntry e || hasDanglingList rest

end

/-! ## Effect model of the tasks

The outcomes of all external effects are fixed in advance by a `World`;
running a task yields the ordered trace of effects it performed together
with an `Except` result (`.error` models a Python exception escaping the
task). -/

/-- Exceptions that can escape the tasks.  The spec's taxonomy names are
used for the provisioning failures: `configurationError` is the
`RuntimeError("failed to get execution token")` of line 29,
`provisioningError` is the `requests.HTTPError` from `raise_for_status()`
(line 41), `protocolError` is the `KeyError` from `resp.json()["name"]`
(line 44), `executionError` is the `subprocess.CalledProcessError` from
`subprocess.run(..., check=True)` (lines 121-126), and `uploadError` is an
exception escaping `remote.upload_from` (line 144). -/
inductive Err where
  | configurationError
  | provisioningError (status : Nat)
  | protocolError
  | executionError (exitCode : Nat)
  | uploadError
  deriving DecidableEq, Repr

/-- External effects, in the order the code performs them. -/
inductive Event where
  | httpPost (auth : String) (storage_gib : Nat)
  | stageCopy
  | spawn (cmd : List String) (pvc : String)
  | logCheck (logExists : Bool)
  | nameLookup (result : Option String)
  | uploadLog
  deriving DecidableEq, Repr

/-- Outcomes of every external effect, fixed in advance. -/
structure World where
  /-- `os.environ.get("FLYTE_INTERNAL_EXECUTION_ID")` (line 27). -/
  token : Option String
  /-- HTTP status of the provisioning response (line 34). -/
  provisionStatus : Nat
  /-- The `"name"` field of the provisioning response body, when present
  (line 44). -/
  provisionName : Option String
  /-- Exit code of the child process (0 = success). -/
  exitCode : Nat
  /-- Whether `shared_dir / ".nextflow.log"` exists (line 131). -/
  logExists : Bool
  /-- Result of `_get_execution_name()` (line 132). -/
  execName : Option String
  /-- Whether `remote.upload_from(nextflow_log)` succeeds (line 144). -/
  uploadOk : Bool
  deriving DecidableEq, Repr

/-- The storage-provisioning task `initialize` (src/wf/entrypoint.py lines
26-44): read the execution token from the environment (raising if absent,
before any HTTP call), POST the authenticated provisioning request with a
body whose `storage_gib` field is the constant 100, raise on a non-success
HTTP status (`raise_for_status` raises exactly for statuses in
[400, 600)), and return the `name` field of the response body (a `KeyError`
if the field is missing). -/
def initializeTask (w : World) : List Event × Except Err String :=
  match w.token with
  | none => ([], .error .configurationError)
  | some t =>
      let ev := Event.httpPost ("Latch-Execution-Token " ++ t) 100
      if 400 ≤ w.provisionStatus ∧ w.provisionStatus < 600 then
        ([ev], .error (.provisioningError w.provisionStatus))
      else
        match w.provisionName with
        | none => ([ev], .error .protocolError)
        | some n => ([ev], .ok n)

/-- The `try` body of `nextflow_runtime` (lines 63-126): stage the working
directory, build the command line, spawn the child process; `check=True`
raises `CalledProcessError` when the exit code is non-zero. -/
def runtimeBody (w : World) (pvc : String) (p : RunParameters) :
    List Event × Except Err Unit :=
  ([Event.stageCopy, Event.spawn (cmd p) pvc],
   if w.exitCode = 0 then .ok () else .error (.executionError w.exitCode))

/-- Whether the `finally` block itself raises: the only raising step in it
is `remote.upload_from`, reached when the log exists and the execution
name resolves. -/
def finalizeRaises (w : World) : Bool :=
  w.logExists && w.execName.isSome && !w.uploadOk

/-- The `finally` block of `nextflow_runtime` (lines 127-144): check for
the log file; when it exists, look up the execution name; when that
resolves, upload the log (which may raise).  A missing log or an
unresolvable name is only a diagnostic, not an error. -/
def finalizeBlock (w : World) : List Event × Except Err Unit :=
  let e1 := Event.logCheck w.logExists
  if w.logExists then
    let e2 := Event.nameLookup w.execName
    match w.execName with
    | none => ([e1, e2], .ok ())
    | some _ =>
        if w.uploadOk then ([e1, e2, Event.uploadLog], .ok ())
        else ([e1, e2, Event.uploadLog], .error .uploadError)
  else ([e1], .ok ())

/-- Python `try/finally` composition: the `finally` suite always runs
after the body; if the `finally` suite raises, its exception propagates
and replaces the body's outcome (the body's exception survives only when
the `finally` suite finishes normally). -/
def tryFinally (body : List Event × Except Err α)
    (fin : List Event × Except Err Unit) : List Event × Except Err α :=
  (body.1 ++ fin.1,
   match fin.2 with
   | .error e => .error e
   | .ok _ => body.2)

/-- The runtime launcher `nextflow_runtime` (lines 48-144): the staging /
command-build / spawn body wrapped in `try ... finally` with the
log-upload finalizer. -/
def nextflow_runtime (w : World) (pvc : String) (p : RunParameters) :
    List Event × Except Err Unit :=
  tryFinally (runtimeBody w pvc p) (finalizeBlock w)

/-- The workflow driver `nf_nf_core_viralintegration` (lines 147-183):
provision storage first, then (only on success) launch the runtime with
the provisioned volume name. -/
def nf_nf_core_viralintegration (w : World) (p : RunParameters) :
    List Event × Except Err Unit :=
  match initializeTask w with
  | (evs, .error e) => (evs, .error e)
  | (evs, .ok pvc) =>
      let r := nextflow_runtime w pvc p
      (evs ++ r.1, r.2)

/-! ## Child-process environment (lines 114-126) -/

/-- Python dict overlay `{**base, k1: v1, ...}`: later keys win. -/
def overlay (base : String → Option String) :
    List (String × String) → String → Option String
  | [], k => base k
  | kv :: rest, k => if k = kv.1 then some kv.2 else overlay base rest k

/-- The four variables the launcher overlays on the ambient environment
(lines 114-120). -/
def overlayVars (pvc : String) : List (String × String) :=
  [("NXF_HOME", "/root/.nextflow"),
   ("NXF_OPTS", "-Xms2048M -Xmx8G -XX:ActiveProcessorCount=4"),
   ("K8S_STORAGE_CLAIM_NAME", pvc),
   ("NXF_DISABLE_CHECK_LATEST", "true")]

/-- The environment passed to the child process: the ambient process
environment overlaid with the four fixed variables. -/
def child_env (ambient : String → Option String) (pvc : String) :
    String → Option String :=
  overlay ambient (overlayVars pvc)

/-- The working directory passed to `subprocess.run` (line 125). -/
def spawn_cwd : String := shared_dir

/-! ## Concrete sample values -/

/-- A concrete parameter record: required fields set, optional fields
absent, defaulted fields at their declared defaults (`min_reads = 5`,
`max_hits = 50`, `remove_duplicates = True`). -/
def sampleParams : RunParameters where
  input := "latch:///samplesheet.csv"
  viral_fasta := "latch:///viral.fa"
  outdir := "latch:///outdir"
  email := none
  multiqc_title := none
  genome := none
  fasta := none
  gtf := none
  multiqc_methods_description := none
  min_reads := 5
  max_hits := 50
  remove_duplicates := true

/-- `sampleParams` with the optional `genome` parameter present. -/
def sampleParamsGenome : RunParameters :=
  { sampleParams with genome := some "GRCh38" }

/-! ## Theorems -/

/-- The parameter names whose flag groups are emitted, in order of
appearance in the command line, are exactly the present parameters in the
source's append order (lines 96-107). -/
lemma cmdFlagNames_eq (p : RunParameters) :
    cmdFlagNames p = sourceFlagOrder.filter (isPresent p) := by
  obtain ⟨i, vf, od, em, mt, ge, fa, gt, md, mr, mh, rd⟩ := p
  cases em <;> cases mt <;> cases ge <;> cases fa <;> cases gt <;> cases md <;> rfl

/-- C1 fails on the code at a concrete input: with `genome` present, the
`--genome` flag group is emitted after the `--min_reads` / `--max_hits` /
`--remove_duplicates` groups (lines 101-104), whereas the declared
parameter order of `nextflow_runtime` (lines 48-61) lists `genome` before
`min_reads`: the emitted flag-group order is not the declared parameter
order. -/
theorem c1_flag_order_counterexample :
    cmdFlagNames sampleParamsGenome ≠
      declaredParamOrder.filter (isPresent sampleParamsGenome) := by
  decide

/-- C1 (amended): for every `RunParameters` value the command line lists
the per-parameter flag groups in the fixed source order (input,
viral_fasta, outdir, email, multiqc_title, min_reads, max_hits,
remove_duplicates, genome, fasta, gtf, multiqc_methods_description) — the
defaulted min_reads/max_hits/remove_duplicates groups precede the optional
genome/fasta/gtf/methods-description groups, deviating from the declared
parameter order — and with min_reads 5, max_hits 50 and remove_duplicates
true the command line contains the contiguous tokens
`--min_reads 5 --max_hits 50 --remove_duplicates true`. -/
theorem c1_flag_order (p : RunParameters) :
    cmdFlagNames p = sourceFlagOrder.filter (isPresent p) ∧
    (p.min_reads = 5 → p.max_hits = 50 → p.remove_duplicates = true →
      ∃ l r, cmd p =
        l ++ ["--min_reads", "5", "--max_hits", "50",
              "--remove_duplicates", "true"] ++ r) := by
  refine ⟨cmdFlagNames_eq p, fun h5 h50 hrd => ?_⟩
  refine ⟨fixedRunnerTokens ++ get_flag_req "input" p.input
      ++ get_flag_req "viral_fasta" p.viral_fasta
      ++ get_flag_req "outdir" p.outdir
      ++ get_flag_opt "email" p.email
      ++ get_flag_opt "multiqc_title" p.multiqc_title,
    get_flag_opt "genome" p.genome ++ get_flag_opt "fasta" p.fasta
      ++ get_flag_opt "gtf" p.gtf
      ++ get_flag_opt "multiqc_methods_description" p.multiqc_methods_description,
    ?_⟩
  have e5 : toString p.min_reads = "5" := by rw [h5]; rfl
  have e50 : toString p.max_hits = "50" := by rw [h50]; rfl
  simp [cmd, get_flag_int, get_flag_bool, e5, e50, hrd, List.append_assoc]

/-- Witness for `c1_flag_order`: at `sampleParams` the defaults hold and
the contiguous default-flag tokens appear in the command line. -/
theorem c1_flag_order_witness :
    sampleParams.min_reads = 5 ∧ sampleParams.max_hits = 50 ∧
    sampleParams.remove_duplicates = true ∧
    ∃ l r, cmd sampleParams =
      l ++ ["--min_reads", "5", "--max_hits", "50",
            "--remove_duplicates", "true"] ++ r :=
  ⟨rfl, rfl, rfl, (c1_flag_order sampleParams).2 rfl rfl rfl⟩

/-- `denyFreeList` distributes over list append. -/
lemma denyFreeList_append (a b : List FSEntry) :
    denyFreeList (a ++ b) = (denyFreeList a && denyFreeList b) := by
  induction a with
  | nil => simp [denyFreeList]
  | cons e rest ih => simp [denyFreeList, ih, Bool.and_assoc]

/-- `hasSymlinkList` distributes over list append. -/
lemma hasSymlinkList_append (a b : List FSEntry) :
    hasSymlinkList (a ++ b) = (hasSymlinkList a || hasSymlinkList b) := by
  induction a with
  | nil => simp [hasSymlinkList]
  | cons e rest ih => simp [hasSymlinkList, ih, Bool.or_assoc]

mutual

/-- The copy of a single non-denylisted entry contains no denylisted
directory at any depth. -/
theorem denyFree_copyOne (b : Bool) (e : FSEntry)
    (h : entryName e ∉ ignore_list) :
    denyFreeList (copyOne b e).1.toList = true := by
  cases e with
  | file n => simp [copyOne, denyFreeList, denyFreeEntry]
  | dir n cs =>
      simp only [entryName] at h
      simp [copyOne, denyFreeList, denyFreeEntry, h, denyFree_copyList b cs]
  | symlink n d =>
      cases d <;> cases b <;> simp [copyOne, denyFreeList, denyFreeEntry]

/-- The copy of a directory listing contains no denylisted directory at
any depth. -/
theorem denyFree_copyList (b : Bool) (l : List FSEntry) :
    denyFreeList (copyList b l).1 = true := by
  cases l with
  | nil => rfl
  | cons e rest =>
      by_cases hig : entryName e ∈ ignore_list
      · simp [copyList, hig, denyFree_copyList b rest]
      · simp [copyList, hig, denyFreeList_append,
              denyFree_copyOne b e hig, denyFree_copyList b rest]

end

mutual

/-- The copy of a single entry contains no symbolic link: links whose
target exists are dereferenced into plain files, dangling links are
dropped. -/
theorem noSymlink_copyOne (b : Bool) (e : FSEntry) :
    hasSymlinkList (copyOne b e).1.toList = false := by
  cases e with
  | file n => simp [copyOne, hasSymlinkList, hasSymlinkEntry]
  | dir n cs =>
      simp [copyOne, hasSymlinkList, hasSymlinkEntry, noSymlink_copyList b cs]
  | symlink n d =>
      cases d <;> cases b <;> simp [copyOne, hasSymlinkList, hasSymlinkEntry]

/-- The copy of a directory listing contains no symbolic link. -/
theorem noSymlink_copyList (b : Bool) (l : List FSEntry) :
    hasSymlinkList (copyList b l).1 = false := by
  cases l with
  | nil => rfl
  | cons e rest =>
      by_cases hig : entryName e ∈ ignore_list
      · simp [copyList, hig, noSymlink_copyList b rest]
      · simp [copyList, hig, hasSymlinkList_append,
              noSymlink_copyOne b e, noSymlink_copyList b rest]

end

mutual

/-- With `ignore_dangling_symlinks=True` the copy of a single entry
accumulates no error. -/
theorem errors_copyOne (e : FSEntry) : (copyOne true e).2 = [] := by
  cases e with
  | file n => rfl
  | dir n cs => simpa [copyOne] using errors_copyList cs
  | symlink n d => cases d <;> rfl

/-- With `ignore_dangling_symlinks=True` the copy of a directory listing
accumulates no error. -/
theorem errors_copyList (l : List FSEntry) : (copyList true l).2 = [] := by
  cases l with
  | nil => rfl
  | cons e rest =>
      by_cases hig : entryName e ∈ ignore_list
      · simp [copyList, hig, errors_copyList rest]
      · simp [copyList, hig, errors_copyOne e, errors_copyList rest]

end

/-- C3 fails on the code at a concrete input: `symlinks=False` together
with `ignore_dangling_symlinks=True` silently skips a dangling symbolic
link rather than copying it as a link — staging a source tree whose only
entry is a dangling link yields an empty staged tree (the link is not
present in the copy as a link or in any other form), while the copy still
completes without error. -/
theorem c3_dangling_not_copied_as_link_counterexample :
    hasDanglingList [FSEntry.symlink "lnk" true] = true ∧
    (stageCopytree [FSEntry.symlink "lnk" true]).1 = [] ∧
    (stageCopytree [FSEntry.symlink "lnk" true]).2 = [] :=
  ⟨rfl, rfl, rfl⟩

/-- C3 (amended): for every source tree containing a dangling symbolic
link, staging completes without error, and the dangling link is silently
omitted rather than copied as a link: the staged tree contains no
symbolic link at all (links whose target exists are dereferenced, dangling
links are skipped). -/
theorem c3_staging_tolerates_dangling (t : List FSEntry)
    (_h : hasDanglingList t = true) :
    (stageCopytree t).2 = [] ∧ hasSymlinkList (stageCopytree t).1 = false :=
  ⟨errors_copyList t, noSymlink_copyList true t⟩

/-- Witness for `c3_staging_tolerates_dangling`: a source tree with a
dangling link nested in a directory stages without error and without
copying the link. -/
theorem c3_staging_tolerates_dangling_witness :
    hasDanglingList [FSEntry.dir "data" [FSEntry.symlink "ref" true]] = true ∧
    (stageCopytree [FSEntry.dir "data" [FSEntry.symlink "ref" true]]).2 = [] ∧
    hasSymlinkList
      (stageCopytree [FSEntry.dir "data" [FSEntry.symlink "ref" true]]).1 = false :=
  ⟨rfl, c3_staging_tolerates_dangling _ rfl⟩

/-- C5: for every source tree, the staged working directory contains no
directory whose name is in the fixed denylist (latch, .latch, nextflow,
.nextflow, work, results, miniconda, anaconda3, mambaforge), at any
nesting depth. -/
theorem c5_staged_tree_denylist_free (t : List FSEntry) :
    denyFreeList (stageCopytree t).1 = true :=
  denyFree_copyList true t

/-- A world in which provisioning succeeds, the child process fails with
exit code 1, the log exists, the execution name resolves, and the log
upload raises. -/
def maskWorld : World where
  token := some "tok"
  provisionStatus := 200
  provisionName := some "vol"
  exitCode := 1
  logExists := true
  execName := some "grumpy_fox"
  uploadOk := false

/-- A world like `maskWorld` with exit code 2 and a different execution
name. -/
def maskWorld2 : World :=
  { maskWorld with exitCode := 2, execName := some "sleepy_owl" }

/-- `maskWorld` with a succeeding log upload. -/
def failWorld : World := { maskWorld with uploadOk := true }

/-- C2 fails on the code at a concrete world: the child process fails (the
try body raises the execution error for exit code 1), the finalize block's
upload then raises, and — by Python `try/finally` semantics — the error
surfacing to the caller of the launch is the upload error, not the
original execution error: a failure inside finalize replaces it. -/
theorem c2_mask_counterexample :
    (runtimeBody maskWorld "vol" sampleParams).2 =
      .error (.executionError 1) ∧
    (nextflow_runtime maskWorld "vol" sampleParams).2 = .error .uploadError ∧
    Err.uploadError ≠ Err.executionError 1 :=
  ⟨rfl, rfl, by decide⟩

/-- C2 (amended): when the child process exits non-zero, the finalize
block still runs to the log check and (when the log exists) to the
execution-name lookup before any error surfaces; the original execution
error surfaces to the caller exactly when finalize itself does not raise —
when the upload step inside finalize raises, that error replaces the
execution error (Python `try/finally` semantics). -/
theorem c2_error_masking (w : World) (pvc : String) (p : RunParameters)
    (h : w.exitCode ≠ 0) :
    Event.logCheck w.logExists ∈ (nextflow_runtime w pvc p).1 ∧
    (w.logExists = true →
      Event.nameLookup w.execName ∈ (nextflow_runtime w pvc p).1) ∧
    (finalizeRaises w = false →
      (nextflow_runtime w pvc p).2 = .error (.executionError w.exitCode)) ∧
    (finalizeRaises w = true →
      (nextflow_runtime w pvc p).2 = .error .uploadError) := by
  obtain ⟨tok, st, nm, ec, lg, en, up⟩ := w
  cases lg <;> cases en <;> cases up <;>
    simp [nextflow_runtime, tryFinally, runtimeBody, finalizeBlock,
          finalizeRaises, h]

/-- Witness for `c2_error_masking` at `maskWorld`. -/
theorem c2_error_masking_witness :
    maskWorld.exitCode ≠ 0 ∧ finalizeRaises maskWorld = true ∧
    Event.logCheck true ∈ (nextflow_runtime maskWorld "vol" sampleParams).1 ∧
    (nextflow_runtime maskWorld "vol" sampleParams).2 = .error .uploadError :=
  ⟨by decide, rfl,
   (c2_error_masking maskWorld "vol" sampleParams (by decide)).1,
   (c2_error_masking maskWorld "vol" sampleParams (by decide)).2.2.2 rfl⟩

/-- C4 fails on the code at a concrete world: with exit code 2 and a
failing log upload, the finalize block does run (the log check and the
name lookup appear in the trace) but the error raised to the caller is the
upload error — the `ExecutionError` carrying the child's exit code never
reaches the caller in this run. -/
theorem c4_counterexample :
    (nextflow_runtime maskWorld2 "vol" sampleParams).1 =
      [Event.stageCopy, Event.spawn (cmd sampleParams) "vol",
       Event.logCheck true, Event.nameLookup (some "sleepy_owl"),
       Event.uploadLog] ∧
    (nextflow_runtime maskWorld2 "vol" sampleParams).2 = .error .uploadError ∧
    Err.uploadError ≠ Err.executionError 2 :=
  ⟨rfl, rfl, by decide⟩

/-- C4 (amended): whenever the child process exits non-zero, the launch
trace is the try-body events followed by the finalize events — the log
check, and the name lookup when the log exists, are performed before the
launch returns — the launch result is an error, and that error is the
execution error carrying the child's exit code whenever finalize itself
does not raise. -/
theorem c4_finalize_before_error (w : World) (pvc : String)
    (p : RunParameters) (h : w.exitCode ≠ 0) :
    (nextflow_runtime w pvc p).1 =
      [Event.stageCopy, Event.spawn (cmd p) pvc] ++ (finalizeBlock w).1 ∧
    Event.logCheck w.logExists ∈ (finalizeBlock w).1 ∧
    (w.logExists = true →
      Event.nameLookup w.execName ∈ (finalizeBlock w).1) ∧
    (∃ e, (nextflow_runtime w pvc p).2 = .error e) ∧
    (finalizeRaises w = false →
      (nextflow_runtime w pvc p).2 = .error (.executionError w.exitCode)) := by
  obtain ⟨tok, st, nm, ec, lg, en, up⟩ := w
  cases lg <;> cases en <;> cases up <;>
    simp [nextflow_runtime, tryFinally, runtimeBody, finalizeBlock,
          finalizeRaises, h]

/-- Witness for `c4_finalize_before_error` at `failWorld` (finalize does
not raise there, so the execution error for exit code 1 surfaces). -/
theorem c4_finalize_before_error_witness :
    failWorld.exitCode ≠ 0 ∧ finalizeRaises failWorld = false ∧
    (nextflow_runtime failWorld "vol" sampleParams).2 =
      .error (.executionError 1) :=
  ⟨by decide, rfl,
   (c4_finalize_before_error failWorld "vol" sampleParams
     (by decide)).2.2.2.2 rfl⟩

/-- `maskWorld` with the execution-token environment variable unset. -/
def noTokenWorld : World := { maskWorld with token := none }

/-- `maskWorld` with the provisioning endpoint answering HTTP 500. -/
def badProvisionWorld : World := { maskWorld with provisionStatus := 500 }

/-- C7: when the execution-token environment variable is unset, the
provisioning task fails with the configuration error before performing any
external effect (its trace is empty, so no HTTP request is made); when the
token is present, the authenticated provisioning request (with the
`Latch-Execution-Token` authorization scheme) is sent. -/
theorem c7_token_gate (w : World) :
    (w.token = none →
      (initializeTask w).2 = .error .configurationError ∧
      (initializeTask w).1 = []) ∧
    (∀ t, w.token = some t →
      (initializeTask w).1 =
        [Event.httpPost ("Latch-Execution-Token " ++ t) 100]) := by
  constructor
  · intro h; simp [initializeTask, h]
  · intro t h
    by_cases hst : 400 ≤ w.provisionStatus ∧ w.provisionStatus < 600 <;>
      cases hn : w.provisionName <;> simp [initializeTask, h, hst, hn]

/-- Witness for `c7_token_gate` at `noTokenWorld` and `maskWorld`. -/
theorem c7_token_gate_witness :
    ((initializeTask noTokenWorld).2 = .error .configurationError ∧
      (initializeTask noTokenWorld).1 = []) ∧
    (initializeTask maskWorld).1 =
      [Event.httpPost ("Latch-Execution-Token " ++ "tok") 100] :=
  ⟨(c7_token_gate noTokenWorld).1 rfl, (c7_token_gate maskWorld).2 "tok" rfl⟩

/-- C8: with the token present, a non-success provisioning status
(400 ≤ status < 600, e.g. 500) aborts the run with the provisioning error
before the staging step and before any child process is spawned; and
conversely the staging or spawn events appear in a run's trace only when
provisioning succeeded and returned a volume name. -/
theorem c8_provisioning_gate (w : World) (p : RunParameters) :
    (∀ t, w.token = some t →
      400 ≤ w.provisionStatus → w.provisionStatus < 600 →
      (nf_nf_core_viralintegration w p).2 =
        .error (.provisioningError w.provisionStatus) ∧
      (∀ c pvc, Event.spawn c pvc ∉ (nf_nf_core_viralintegration w p).1) ∧
      Event.stageCopy ∉ (nf_nf_core_viralintegration w p).1) ∧
    ((Event.stageCopy ∈ (nf_nf_core_viralintegration w p).1 ∨
      (∃ c pvc, Event.spawn c pvc ∈ (nf_nf_core_viralintegration w p).1)) →
      ∃ t n, w.token = some t ∧ w.provisionName = some n ∧
        (initializeTask w).2 = .ok n) := by
  constructor
  · rintro t htok h4 h6
    have hst : 400 ≤ w.provisionStatus ∧ w.provisionStatus < 600 := ⟨h4, h6⟩
    simp [nf_nf_core_viralintegration, initializeTask, htok, hst]
  · intro hmem
    cases htok : w.token with
    | none =>
        simp [nf_nf_core_viralintegration, initializeTask, htok] at hmem
    | some t =>
        by_cases hst : 400 ≤ w.provisionStatus ∧ w.provisionStatus < 600
        · simp [nf_nf_core_viralintegration, initializeTask, htok, hst] at hmem
        · cases hnm : w.provisionName with
          | none =>
              simp [nf_nf_core_viralintegration, initializeTask,
                    htok, hst, hnm] at hmem
          | some n =>
              exact ⟨t, n, rfl, rfl, by simp [initializeTask, htok, hst, hnm]⟩

/-- Witness for `c8_provisioning_gate` at `badProvisionWorld` (HTTP
500). -/
theorem c8_provisioning_gate_witness :
    (nf_nf_core_viralintegration badProvisionWorld sampleParams).2 =
      .error (.provisioningError 500) ∧
    Event.stageCopy ∉
      (nf_nf_core_viralintegration badProvisionWorld sampleParams).1 := by
  have h := (c8_provisioning_gate badProvisionWorld sampleParams).1
    "tok" rfl (by decide) (by decide)
  exact ⟨h.1, h.2.2⟩

/-- C9: the environment passed to the child process is the ambient process
environment overlaid with exactly the four fixed variables — `NXF_HOME`,
`NXF_OPTS`, `K8S_STORAGE_CLAIM_NAME` (set to the provisioned volume name)
and `NXF_DISABLE_CHECK_LATEST` — every other ambient variable is passed
through unchanged, and the child's working directory is the staged
directory. -/
theorem c9_child_env (ambient : String → Option String) (pvc : String) :
    child_env ambient pvc "NXF_HOME" = some "/root/.nextflow" ∧
    child_env ambient pvc "NXF_OPTS" =
      some "-Xms2048M -Xmx8G -XX:ActiveProcessorCount=4" ∧
    child_env ambient pvc "K8S_STORAGE_CLAIM_NAME" = some pvc ∧
    child_env ambient pvc "NXF_DISABLE_CHECK_LATEST" = some "true" ∧
    (∀ k, k ∉ (overlayVars pvc).map Prod.fst →
      child_env ambient pvc k = ambient k) ∧
    spawn_cwd = shared_dir := by
  refine ⟨by simp [child_env, overlay, overlayVars],
    by simp [child_env, overlay, overlayVars],
    by simp [child_env, overlay, overlayVars],
    by simp [child_env, overlay, overlayVars], ?_, rfl⟩
  intro k hk
  simp only [overlayVars, List.map_cons, List.map_nil, List.mem_cons,
    List.not_mem_nil, or_false, not_or] at hk
  obtain ⟨h1, h2, h3, h4⟩ := hk
  simp [child_env, overlay, overlayVars, h1, h2, h3, h4]

/-- Witness for `c9_child_env`: a non-overlaid ambient variable passes
through. -/
theorem c9_child_env_witness :
    "PATH" ∉ (overlayVars "vol").map Prod.fst ∧
    child_env (fun k => if k = "PATH" then some "/usr/bin" else none)
      "vol" "PATH" = some "/usr/bin" := by
  refine ⟨by decide, ?_⟩
  have h := (c9_child_env
    (fun k => if k = "PATH" then some "/usr/bin" else none) "vol").2.2.2.2.1
    "PATH" (by decide)
  simpa using h

/-- The finalize block performs no HTTP provisioning request. -/
lemma post_not_mem_finalize (w : World) (a : String) (g : Nat) :
    Event.httpPost a g ∉ (finalizeBlock w).1 := by
  obtain ⟨tok, st, nm, ec, lg, en, up⟩ := w
  cases lg <;> cases en <;> cases up <;> simp [finalizeBlock]

/-- The runtime launcher performs no HTTP provisioning request. -/
lemma post_not_mem_runtime (w : World) (pvc : String) (p : RunParameters)
    (a : String) (g : Nat) :
    Event.httpPost a g ∉ (nextflow_runtime w pvc p).1 := by
  simp [nextflow_runtime, tryFinally, runtimeBody, post_not_mem_finalize]

/-- C10: every provisioning request the workflow performs carries a body
whose `storage_gib` field is the constant 100; the provisioning task takes
no caller-controllable size input, so the requested size is independent of
all workflow parameters. -/
theorem c10_storage_constant (w : World) (p : RunParameters) (a : String)
    (g : Nat)
    (h : Event.httpPost a g ∈ (nf_nf_core_viralintegration w p).1) :
    g = 100 := by
  cases htok : w.token with
  | none => simp [nf_nf_core_viralintegration, initializeTask, htok] at h
  | some t =>
      by_cases hst : 400 ≤ w.provisionStatus ∧ w.provisionStatus < 600
      · simp [nf_nf_core_viralintegration, initializeTask, htok, hst] at h
        exact h.2
      · cases hnm : w.provisionName with
        | none =>
            simp [nf_nf_core_viralintegration, initializeTask,
                  htok, hst, hnm] at h
            exact h.2
        | some n =>
            simp [nf_nf_core_viralintegration, initializeTask, htok, hst,
                  hnm, post_not_mem_runtime] at h
            exact h.2

/-- Witness for `c10_storage_constant` at `maskWorld`. -/
theorem c10_storage_constant_witness :
    Event.httpPost ("Latch-Execution-Token " ++ "tok") 100 ∈
      (nf_nf_core_viralintegration maskWorld sampleParams).1 ∧
    (100 : Nat) = 100 :=
  ⟨by decide,
   c10_storage_constant maskWorld sampleParams
     ("Latch-Execution-Token " ++ "tok") 100 (by decide)⟩

/-- Any member of an optional flag group is the flag-name token (the value
is then present) or a rendered value. -/
lemma mem_get_flag_opt {t name : String} {v : Option String}
    (h : t ∈ get_flag_opt name v) :
    (v.isSome = true ∧ t = "--" ++ name) ∨ t ∈ v.toList := by
  cases v with
  | none => simp [get_flag_opt] at h
  | some s =>
      simp only [get_flag_opt, List.mem_cons, List.not_mem_nil, or_false] at h
      rcases h with rfl | rfl <;> simp

/-- Any member of a required flag group is the flag-name token or the
value. -/
lemma mem_get_flag_req {t name v : String} (h : t ∈ get_flag_req name v) :
    t = "--" ++ name ∨ t = v := by
  simpa [get_flag_req] using h

/-- Any member of an integer flag group is the flag-name token or the
rendered integer. -/
lemma mem_get_flag_int {t name : String} {n : Int}
    (h : t ∈ get_flag_int name n) : t = "--" ++ name ∨ t = toString n := by
  simpa [get_flag_int] using h

/-- Any member of the boolean flag group is the flag-name token or the
boolean encoding. -/
lemma mem_get_flag_bool {t name : String} {b : Bool}
    (h : t ∈ get_flag_bool name b) :
    t = "--" ++ name ∨ t = (if b then "true" else "false") := by
  simpa [get_flag_bool] using h

/-- Every token of the generated command line is a fixed runner token, the
flag-name token `--name` of a present parameter, or a rendered parameter
value. -/
lemma cmd_token_cases (p : RunParameters) (t : String) (ht : t ∈ cmd p) :
    t ∈ fixedRunnerTokens ∨
    (∃ n, n ∈ sourceFlagOrder ∧ isPresent p n = true ∧ t = "--" ++ n) ∨
    t ∈ valueTokens p := by
  simp only [cmd, List.append_assoc, List.mem_append] at ht
  rcases ht with h | h | h | h | h | h | h | h | h | h | h | h | h
  · exact Or.inl h
  · rcases mem_get_flag_req h with rfl | rfl
    · exact Or.inr (Or.inl ⟨"input", by decide, rfl, rfl⟩)
    · exact Or.inr (Or.inr (by simp [valueTokens]))
  · rcases mem_get_flag_req h with rfl | rfl
    · exact Or.inr (Or.inl ⟨"viral_fasta", by decide, rfl, rfl⟩)
    · exact Or.inr (Or.inr (by simp [valueTokens]))
  · rcases mem_get_flag_req h with rfl | rfl
    · exact Or.inr (Or.inl ⟨"outdir", by decide, rfl, rfl⟩)
    · exact Or.inr (Or.inr (by simp [valueTokens]))
  · rcases mem_get_flag_opt h with ⟨hs, rfl⟩ | hv
    · exact Or.inr (Or.inl ⟨"email", by decide, hs, rfl⟩)
    · refine Or.inr (Or.inr ?_)
      simp only [valueTokens, List.append_assoc, List.mem_append]
      tauto
  · rcases mem_get_flag_opt h with ⟨hs, rfl⟩ | hv
    · exact Or.inr (Or.inl ⟨"multiqc_title", by decide, hs, rfl⟩)
    · refine Or.inr (Or.inr ?_)
      simp only [valueTokens, List.append_assoc, List.mem_append]
      tauto
  · rcases mem_get_flag_int h with rfl | rfl
    · exact Or.inr (Or.inl ⟨"min_reads", by decide, rfl, rfl⟩)
    · exact Or.inr (Or.inr (by simp [valueTokens]))
  · rcases mem_get_flag_int h with rfl | rfl
    · exact Or.inr (Or.inl ⟨"max_hits", by decide, rfl, rfl⟩)
    · exact Or.inr (Or.inr (by simp [valueTokens]))
  · rcases mem_get_flag_bool h with rfl | rfl
    · exact Or.inr (Or.inl ⟨"remove_duplicates", by decide, rfl, rfl⟩)
    · exact Or.inr (Or.inr (by simp [valueTokens]))
  · rcases mem_get_flag_opt h with ⟨hs, rfl⟩ | hv
    · exact Or.inr (Or.inl ⟨"genome", by decide, hs, rfl⟩)
    · refine Or.inr (Or.inr ?_)
      simp only [valueTokens, List.append_assoc, List.mem_append]
      tauto
  · rcases mem_get_flag_opt h with ⟨hs, rfl⟩ | hv
    · exact Or.inr (Or.inl ⟨"fasta", by decide, hs, rfl⟩)
    · refine Or.inr (Or.inr ?_)
      simp only [valueTokens, List.append_assoc, List.mem_append]
      tauto
  · rcases mem_get_flag_opt h with ⟨hs, rfl⟩ | hv
    · exact Or.inr (Or.inl ⟨"gtf", by decide, hs, rfl⟩)
    · refine Or.inr (Or.inr ?_)
      simp only [valueTokens, List.append_assoc, List.mem_append]
      tauto
  · rcases mem_get_flag_opt h with ⟨hs, rfl⟩ | hv
    · exact Or.inr
        (Or.inl ⟨"multiqc_methods_description", by decide, hs, rfl⟩)
    · refine Or.inr (Or.inr ?_)
      simp only [valueTokens, List.append_assoc, List.mem_append]
      tauto

/-- The `--name` flag token of an absent optional parameter never appears
in the command line built from well-formed parameters. -/
lemma absent_flag_not_mem (p : RunParameters) (name : String)
    (hw : wfParams p)
    (hn : name ∈ ["email", "multiqc_title", "genome", "fasta", "gtf",
                  "multiqc_methods_description"])
    (habs : isPresent p name = false) :
    ("--" ++ name) ∉ cmd p := by
  intro hmem
  simp only [List.mem_cons, List.not_mem_nil, or_false] at hn
  rcases cmd_token_cases p _ hmem with hfix | ⟨n, hn', hp, heq⟩ | hval
  · rcases hn with rfl | rfl | rfl | rfl | rfl | rfl <;>
      exact absurd hfix (by decide)
  · simp only [sourceFlagOrder, List.mem_cons, List.not_mem_nil,
      or_false] at hn'
    rcases hn with rfl | rfl | rfl | rfl | rfl | rfl <;>
      rcases hn' with rfl | rfl | rfl | rfl | rfl | rfl | rfl | rfl | rfl |
        rfl | rfl | rfl <;>
      first
        | exact absurd heq (by decide)
        | (rw [habs] at hp; exact absurd hp (by decide))
  · rcases hn with rfl | rfl | rfl | rfl | rfl | rfl <;>
      exact absurd (hw _ hval) (by decide)

/-- C6: for well-formed parameters (no rendered value itself looks like a
flag token), each absent optional field contributes no flag token to the
command line: when `email`, `multiqc_title`, `genome`, `fasta`, `gtf` or
`multiqc_methods_description` is absent, the corresponding `--name` token
does not occur anywhere in the generated command line — the flag group is
omitted entirely rather than emitted with an empty value. -/
theorem c6_absent_optionals_omitted (p : RunParameters) (hw : wfParams p) :
    (p.email = none → "--email" ∉ cmd p) ∧
    (p.multiqc_title = none → "--multiqc_title" ∉ cmd p) ∧
    (p.genome = none → "--genome" ∉ cmd p) ∧
    (p.fasta = none → "--fasta" ∉ cmd p) ∧
    (p.gtf = none → "--gtf" ∉ cmd p) ∧
    (p.multiqc_methods_description = none →
      "--multiqc_methods_description" ∉ cmd p) := by
  have e1 : isPresent p "email" = p.email.isSome := rfl
  have e2 : isPresent p "multiqc_title" = p.multiqc_title.isSome := rfl
  have e3 : isPresent p "genome" = p.genome.isSome := rfl
  have e4 : isPresent p "fasta" = p.fasta.isSome := rfl
  have e5 : isPresent p "gtf" = p.gtf.isSome := rfl
  have e6 : isPresent p "multiqc_methods_description" =
      p.multiqc_methods_description.isSome := rfl
  exact ⟨fun h => absent_flag_not_mem p "email" hw (by decide)
           (by rw [e1, h]; rfl),
         fun h => absent_flag_not_mem p "multiqc_title" hw (by decide)
           (by rw [e2, h]; rfl),
         fun h => absent_flag_not_mem p "genome" hw (by decide)
           (by rw [e3, h]; rfl),
         fun h => absent_flag_not_mem p "fasta" hw (by decide)
           (by rw [e4, h]; rfl),
         fun h => absent_flag_not_mem p "gtf" hw (by decide)
           (by rw [e5, h]; rfl),
         fun h => absent_flag_not_mem p "multiqc_methods_description" hw
           (by decide) (by rw [e6, h]; rfl)⟩

/-- Witness for `c6_absent_optionals_omitted` at `sampleParams`. -/
theorem c6_absent_optionals_omitted_witness :
    wfParams sampleParams ∧ "--email" ∉ cmd sampleParams ∧
    "--genome" ∉ cmd sampleParams := by
  have hw : wfParams sampleParams := by decide
  exact ⟨hw, (c6_absent_optionals_omitted sampleParams hw).1 rfl,
         (c6_absent_optionals_omitted sampleParams hw).2.2.1 rfl⟩

end ViralIntegration
